import Mathlib

/-!
Verification of the frame-preparation and prompt-evaluation pipeline of
`deforum/generate.py`: prompt math-expression substitution, `--neg` prompt
splitting, image/mask loading, mask preparation, init-image resolution,
request building and the process-wide first-result record.

Python-level conventions used throughout the embedding:
* fallible code returns `Except PyErr`; the `PyErr` constructors mirror the
  exception classes the interpreter would raise at the corresponding line;
* floats that are only compared and copied (never subjected to rounding)
  are modelled as rationals;
* external collaborators (network fetch, the PIL/torchvision codec
  operations whose numeric content is out of scope, the expression
  evaluator `parse_weight` from `.prompt`, and the `process_images`
  dispatcher) are fields of an `Env` record;
* observable side effects (directory creation, the strength notice print,
  the dispatch call) are collected in an effect list.
-/

/-- Exceptions the interpreter can raise while running the module. -/
inductive PyErr where
  /-- a failed `assert` statement, with its message (`""` when the
  statement carries none) -/
  | assertionError (msg : String)
  /-- tuple unpacking with the wrong number of values -/
  | valueError
  /-- attribute lookup on an object that lacks the attribute -/
  | attributeError
  /-- reference to an unbound name -/
  | nameError
  /-- `Image.open`/`requests.get` failure for an unreachable or
  undecodable reference -/
  | fetchError
  /-- subscripting an empty list -/
  | indexError
  deriving DecidableEq

/-- The backtick delimiter of prompt math expressions. -/
def tick : Char := Char.ofNat 96

/-! ### Expression substitution

`generate` runs `re.sub` with the VERBOSE pattern `(?P<weight>(` ``
`[\S\s]*?` `` `))` over the prompt: every non-overlapping, left-to-right,
minimal match of backtick–body–backtick is replaced by
`str(parse_weight(m, frame))`.  `substGo` is a character-level transcription
of that scan: outside a match candidate it copies characters; after an
opening backtick it accumulates the candidate body; a closing backtick
completes a match, which is handed (with its delimiters, as `re.sub` hands
the match object) to the evaluator; an opening backtick that never finds a
partner is literal text, as the regex then has no match there. -/
def substGo (ev : List Char → List Char) : List Char → Option (List Char) → List Char
  | [], none => []
  | [], some acc => tick :: acc.reverse
  | c :: rest, none =>
    if c = tick then substGo ev rest (some [])
    else c :: substGo ev rest none
  | c :: rest, some acc =>
    if c = tick then ev (tick :: (acc.reverse ++ [tick])) ++ substGo ev rest none
    else substGo ev rest (some (c :: acc))

/-- `parsed_prompt = re.sub(math_parser, lambda m: str(parse_weight(m, frame)), args.prompt)`:
the evaluator `ev` abstracts the external `parse_weight` collaborator
composed with `str`, applied at the fixed frame index. -/
def pySub (ev : String → Nat → String) (frame : Nat) (s : String) : String :=
  ⟨substGo (fun occ => (ev ⟨occ⟩ frame).data) s.data none⟩

/-- Specification-side decomposition of a prompt: the same left-to-right,
non-overlapping scan as `substGo`, but recording segments instead of
substituting, so that the substitution can be stated as a per-segment map. -/
inductive Seg where
  /-- a character of non-delimited text -/
  | lit (c : Char)
  /-- the body of one backtick-delimited expression occurrence -/
  | expr (body : List Char)
  deriving DecidableEq

/-- Segment decomposition scanner (specification side). -/
def segsGo : List Char → Option (List Char) → List Seg
  | [], none => []
  | [], some acc => .lit tick :: acc.reverse.map .lit
  | c :: rest, none =>
    if c = tick then segsGo rest (some [])
    else .lit c :: segsGo rest none
  | c :: rest, some acc =>
    if c = tick then .expr acc.reverse :: segsGo rest none
    else segsGo rest (some (c :: acc))

/-- Rendering one segment: literal characters pass through unchanged, each
expression occurrence is replaced by the evaluator's result on the
delimited occurrence. -/
def renderSeg (ev : List Char → List Char) : Seg → List Char
  | .lit c => [c]
  | .expr body => ev (tick :: (body ++ [tick]))

/-- Whether a segment is an expression occurrence. -/
def Seg.isExpr : Seg → Bool
  | .expr _ => true
  | .lit _ => false

@[simp] theorem Seg.isExpr_lit (c : Char) : (Seg.lit c).isExpr = false := rfl

@[simp] theorem Seg.isExpr_expr (b : List Char) : (Seg.expr b).isExpr = true := rfl

theorem flatMap_map_lit (ev : List Char → List Char) :
    ∀ l : List Char, ((l.map Seg.lit).flatMap (renderSeg ev)) = l := by
  intro l
  induction l with
  | nil => simp
  | cons c rest ih => simp [renderSeg, ih]

theorem countP_map_lit :
    ∀ l : List Char, ((l.map Seg.lit).countP fun s => Seg.isExpr s) = 0 := by
  intro l
  induction l with
  | nil => simp
  | cons c rest ih => simp [List.countP_cons, ih]

theorem substGo_eq_segsGo (ev : List Char → List Char) :
    ∀ (l : List Char) (st : Option (List Char)),
      substGo ev l st = (segsGo l st).flatMap (renderSeg ev) := by
  intro l
  induction l with
  | nil =>
    intro st
    cases st with
    | none => simp [substGo, segsGo]
    | some acc =>
      simp only [substGo, segsGo, List.flatMap_cons, renderSeg]
      rw [flatMap_map_lit ev acc.reverse]
      simp
  | cons c rest ih =>
    intro st
    cases st with
    | none =>
      by_cases hc : c = tick <;>
        simp [substGo, segsGo, hc, ih, renderSeg]
    | some acc =>
      by_cases hc : c = tick <;>
        simp [substGo, segsGo, hc, ih, renderSeg]

theorem segsGo_no_tick (l : List Char) (h : l.count tick = 0) :
    segsGo l none = l.map .lit := by
  induction l with
  | nil => simp [segsGo]
  | cons c rest ih =>
    rw [List.count_cons] at h
    by_cases hc : c = tick
    · simp [hc] at h
    · have hr : rest.count tick = 0 := by omega
      simp [segsGo, hc, ih hr]

theorem substGo_no_tick (ev : List Char → List Char) (l : List Char)
    (h : l.count tick = 0) : substGo ev l none = l := by
  rw [substGo_eq_segsGo, segsGo_no_tick l h, flatMap_map_lit]

theorem segsGo_expr_count :
    ∀ (l : List Char),
      ((segsGo l none).countP (fun s => Seg.isExpr s)) = l.count tick / 2 ∧
      ∀ acc, ((segsGo l (some acc)).countP (fun s => Seg.isExpr s)) = (l.count tick + 1) / 2 := by
  intro l
  induction l with
  | nil =>
    refine ⟨by simp [segsGo], fun acc => ?_⟩
    simp [segsGo, List.countP_cons, countP_map_lit acc.reverse]
  | cons c rest ih =>
    by_cases hc : c = tick
    · subst hc
      refine ⟨?_, fun acc => ?_⟩
      · rw [show segsGo (tick :: rest) none = segsGo rest (some []) from by
          simp [segsGo]]
        rw [ih.2 [], List.count_cons]
        simp
      · rw [show segsGo (tick :: rest) (some acc)
              = Seg.expr acc.reverse :: segsGo rest none from by
          simp [segsGo]]
        rw [List.countP_cons, ih.1, List.count_cons]
        simp only [Seg.isExpr_expr, if_true, beq_self_eq_true, ite_true]
        omega
    · refine ⟨?_, fun acc => ?_⟩
      · rw [show segsGo (c :: rest) none = Seg.lit c :: segsGo rest none from by
          simp [segsGo, hc]]
        rw [List.countP_cons, ih.1, List.count_cons]
        simp [hc]
      · rw [show segsGo (c :: rest) (some acc) = segsGo rest (some (c :: acc)) from by
          simp [segsGo, hc]]
        rw [ih.2 (c :: acc), List.count_cons]
        simp [hc]

/-! ### Negative-prompt splitting

`generate` runs `parsed_prompt.split("--neg")` and, when more than one part
results, unpacks the parts into the pair `(p.prompt, p.negative_prompt)`.
Python's `str.split(sep)` cuts at every non-overlapping occurrence of the
separator, scanning left to right, and keeps empty parts. -/

/-- First-occurrence finder: `breakOn sep l = some (pre, post)` when `sep`
occurs in `l`, where `pre` is the text before the first occurrence and
`post` the text after it; `none` when `sep` does not occur. -/
def breakOn (sep : List Char) : List Char → Option (List Char × List Char)
  | [] => none
  | c :: cs =>
    if sep.isPrefixOf (c :: cs) then some ([], (c :: cs).drop sep.length)
    else
      match breakOn sep cs with
      | some (pre, post) => some (c :: pre, post)
      | none => none

/-- Fuelled worker for `str.split(sep)`; `l.length` fuel always suffices
because every found occurrence consumes at least one character. -/
def splitAux (sep : List Char) : Nat → List Char → List (List Char)
  | 0, l => [l]
  | fuel + 1, l =>
    match breakOn sep l with
    | none => [l]
    | some (pre, post) => pre :: splitAux sep fuel post

/-- `s.split(sep)` for a non-empty separator. -/
def pySplit (s sep : String) : List String :=
  (splitAux sep.data s.data.length s.data).map String.mk

/-- Fuelled worker counting the non-overlapping occurrences of `sep`,
scanning left to right (specification side). -/
def countOccAux (sep : List Char) : Nat → List Char → Nat
  | 0, _ => 0
  | fuel + 1, l =>
    match breakOn sep l with
    | none => 0
    | some (_, post) => countOccAux sep fuel post + 1

/-- Number of non-overlapping occurrences of `sep` in `s`. -/
def countOcc (s sep : String) : Nat := countOccAux sep.data s.data.length s.data

/-- The `--neg` separator. -/
def negSep : String := "--neg"

/-- Lines 124–129: split the substituted prompt on `"--neg"`.  With more
than one part the source unpacks `parsed_prompt.split("--neg")` into the
two names `p.prompt, p.negative_prompt`; unpacking a list of three or more
values raises `ValueError`.  Otherwise the positive prompt is the sole
part and the negative prompt is empty. -/
def splitNeg (parsed_prompt : String) : Except PyErr (String × String) :=
  let prompt_split := pySplit parsed_prompt negSep
  if prompt_split.length > 1 then
    match prompt_split with
    | [a, b] => .ok (a, b)
    | _ => .error .valueError
  else
    .ok (prompt_split.headD "", "")

theorem breakOn_length {sep : List Char} :
    ∀ {l pre post : List Char}, breakOn sep l = some (pre, post) →
      post.length + sep.length ≤ l.length := by
  intro l
  induction l with
  | nil => intro pre post h; simp [breakOn] at h
  | cons c cs ih =>
    intro pre post h
    rw [breakOn] at h
    by_cases hp : sep.isPrefixOf (c :: cs)
    · rw [if_pos hp] at h
      have hle : sep.length ≤ (c :: cs).length :=
        (List.isPrefixOf_iff_prefix.mp hp).length_le
      cases h
      simp only [List.length_drop]
      omega
    · rw [if_neg hp] at h
      cases hbr : breakOn sep cs with
      | none => rw [hbr] at h; exact absurd h (by simp)
      | some pp =>
        rw [hbr] at h
        cases pp with
        | mk pre' post' =>
          have := ih hbr
          simp only at h
          cases h
          simp only [List.length_cons]
          omega

theorem splitAux_fuel {sep : List Char} (hsep : sep ≠ []) :
    ∀ (f g : Nat) (l : List Char), l.length ≤ f → l.length ≤ g →
      splitAux sep f l = splitAux sep g l := by
  intro f
  induction f with
  | zero =>
    intro g l hf _
    have : l = [] := List.length_eq_zero.mp (Nat.le_zero.mp hf)
    subst this
    cases g with
    | zero => rfl
    | succ g => simp [splitAux, breakOn]
  | succ f ihf =>
    intro g l hf hg
    cases hbr : breakOn sep l with
    | none =>
      cases g with
      | zero =>
        have : l = [] := List.length_eq_zero.mp (Nat.le_zero.mp hg)
        subst this
        simp [splitAux, breakOn]
      | succ g => simp [splitAux, hbr]
    | some pp =>
      cases pp with
      | mk pre post =>
        have hlen := breakOn_length hbr
        have hsl : 1 ≤ sep.length := by
          cases sep with
          | nil => exact absurd rfl hsep
          | cons a as => simp
        cases g with
        | zero => omega
        | succ g =>
          simp only [splitAux, hbr]
          rw [ihf g post (by omega) (by omega)]

theorem countOccAux_fuel {sep : List Char} (hsep : sep ≠ []) :
    ∀ (f g : Nat) (l : List Char), l.length ≤ f → l.length ≤ g →
      countOccAux sep f l = countOccAux sep g l := by
  intro f
  induction f with
  | zero =>
    intro g l hf _
    have : l = [] := List.length_eq_zero.mp (Nat.le_zero.mp hf)
    subst this
    cases g with
    | zero => rfl
    | succ g => simp [countOccAux, breakOn]
  | succ f ihf =>
    intro g l hf hg
    cases hbr : breakOn sep l with
    | none =>
      cases g with
      | zero =>
        have : l = [] := List.length_eq_zero.mp (Nat.le_zero.mp hg)
        subst this
        simp [countOccAux, breakOn]
      | succ g => simp [countOccAux, hbr]
    | some pp =>
      cases pp with
      | mk pre post =>
        have hlen := breakOn_length hbr
        have hsl : 1 ≤ sep.length := by
          cases sep with
          | nil => exact absurd rfl hsep
          | cons a as => simp
        cases g with
        | zero => omega
        | succ g =>
          simp only [countOccAux, hbr]
          rw [ihf g post (by omega) (by omega)]

theorem splitAux_length {sep : List Char} (hsep : sep ≠ []) :
    ∀ (f : Nat) (l : List Char), l.length ≤ f →
      (splitAux sep f l).length = countOccAux sep f l + 1 := by
  intro f
  induction f with
  | zero => intro l _; simp [splitAux, countOccAux]
  | succ f ihf =>
    intro l hf
    cases hbr : breakOn sep l with
    | none => simp [splitAux, countOccAux, hbr]
    | some pp =>
      cases pp with
      | mk pre post =>
        have hlen := breakOn_length hbr
        have hsl : 1 ≤ sep.length := by
          cases sep with
          | nil => exact absurd rfl hsep
          | cons a as => simp
        simp only [splitAux, countOccAux, hbr, List.length_cons]
        rw [ihf post (by omega)]

/-! ### Image model

Images are modelled at the level the module manipulates them: geometry,
channel mode, and a pixel function `px x y c`.  The numeric content of the
external codec's resampling filter (Lanczos) is an external collaborator,
so resizing is an `Env` field constrained in theorems only by the
properties PIL guarantees (it sets the requested size and keeps the mode).
-/

/-- PIL channel modes used by the module. -/
inductive Mode where
  | RGB
  | RGBA
  | L
  deriving DecidableEq

/-- Number of channels of a mode. -/
def Mode.channels : Mode → Nat
  | .RGB => 3
  | .RGBA => 4
  | .L => 1

/-- A decoded image: geometry, mode, and 8-bit pixels `px x y c`. -/
structure Img where
  width : Nat
  height : Nat
  mode : Mode
  px : Nat → Nat → Nat → Nat

/-- ITU-R 601-2 luma transform used by PIL for conversion to `L`
(rounding detail irrelevant to the claims). -/
def lum (r g b : Nat) : Nat := (r * 299 + g * 587 + b * 114) / 1000

/-- `image.convert(mode)`: RGBA→RGB drops the alpha band, RGB→RGBA adds an
opaque one, L replicates into color bands, color→L takes luma, and a
conversion to the current mode leaves the image unchanged. -/
def Img.convert (img : Img) (m : Mode) : Img :=
  { width := img.width, height := img.height, mode := m,
    px := fun x y c =>
      match img.mode, m with
      | .RGB, .RGB | .RGBA, .RGBA | .L, .L => img.px x y c
      | .RGB, .RGBA => if c = 3 then 255 else img.px x y c
      | .RGBA, .RGB => img.px x y c
      | .L, .RGB => img.px x y 0
      | .L, .RGBA => if c = 3 then 255 else img.px x y 0
      | .RGB, .L | .RGBA, .L => lum (img.px x y 0) (img.px x y 1) (img.px x y 2) }

/-- One band of `Image.split`: band `i` as a single-channel image. -/
def channelImg (i : Nat) (img : Img) : Img :=
  { width := img.width, height := img.height, mode := .L,
    px := fun x y _ => img.px x y i }

/-- `astype(np.uint8)` on a float value (truncation into byte range; only
the type, never the value, matters to the claims). -/
def toU8 (q : ℚ) : Nat := (q.floor % 256).toNat

/-- A `numpy` array of shape `(d0, d1, d2)` holding bytes. -/
structure Arr3 where
  d0 : Nat
  d1 : Nat
  d2 : Nat
  val : Nat → Nat → Nat → Nat

/-- `Image.fromarray` on a `(rows, cols, channels)` uint8 array: the first
axis is the image height, the second the width, so the PIL size is
`(cols, rows)`; 3-channel data decodes as RGB, 4-channel as RGBA. -/
def fromarray (a : Arr3) : Img :=
  { width := a.d1, height := a.d0,
    mode := if a.d2 = 4 then .RGBA else if a.d2 = 1 then .L else .RGB,
    px := fun x y c => a.val y x c }

/-- A carried-over sample tensor, channel-first (`c h w`), float values. -/
structure Tensor where
  c : Nat
  h : Nat
  w : Nat
  data : Nat → Nat → Nat → ℚ

/-- `255. * rearrange(args.init_sample.cpu().numpy(), 'c h w -> h w c')`
followed by `.astype(np.uint8)`: an `(h, w, c)` byte array. -/
def tensorToArr (t : Tensor) : Arr3 :=
  { d0 := t.h, d1 := t.w, d2 := t.c,
    val := fun i j k => toU8 (255 * t.data k i j) }

/-- The generation request object `p` (the fields of `root.p` that
`generate` populates, lines 106–176). -/
structure P where
  batch_size : Nat
  width : Nat
  height : Nat
  steps : Nat
  seed : Int
  do_not_save_samples : Bool
  do_not_save_grid : Bool
  sampler_index : Int
  mask_blur : ℚ
  /-- `p.extra_generation_params["Mask blur"]` -/
  mask_blur_param : ℚ
  n_iter : Nat
  cfg_scale : ℚ
  outpath_samples : String
  outpath_grids : String
  prompt : String
  negative_prompt : String
  denoising_strength : ℚ
  init_images : List (Option Img)
  mask : Option Img

/-- The result the external `process_images` engine returns (a
`GenerationResult`: images, the seed actually used, an info string). -/
structure Processed where
  images : List Img
  seed : Int
  info : String

/-- External collaborators of the module (spec §6): fetch/decode, the
codec's resize, the torchvision brightness/contrast adjustments, the
`np.random.rand` stream, the expression evaluator, and the generation
dispatcher. -/
structure Env where
  /-- `Image.open` on a path or URL: `none` models a fetch/decode failure -/
  fetch : String → Option Img
  /-- `image.resize(size, resample=Image.LANCZOS)` -/
  resample : Img → Nat × Nat → Img
  /-- `TF.adjust_brightness` -/
  adjustBrightness : Img → ℚ → Img
  /-- `TF.adjust_contrast` -/
  adjustContrast : Img → ℚ → Img
  /-- `np.random.rand` stream, values in `[0, 1)` -/
  rand : Nat → Nat → Nat → ℚ
  /-- `str(parse_weight(m, frame))` on a matched occurrence -/
  ev : String → Nat → String
  /-- `processing.process_images(p)` -/
  dispatch : P → Processed

/-- Lines 28–49, `load_img(path, shape, use_alpha_as_mask)`: open the
reference, convert to RGBA when the alpha channel is to become a mask
(RGB otherwise), resize to `shape` with Lanczos, and in the alpha case
split out band 4 as an `L` mask and reduce the image to RGB. -/
def load_img (env : Env) (path : String) (shape : Nat × Nat)
    (use_alpha_as_mask : Bool) : Except PyErr (Img × Option Img) :=
  match env.fetch path with
  | none => .error .fetchError
  | some image0 =>
    let image1 := if use_alpha_as_mask then image0.convert .RGBA
                  else image0.convert .RGB
    let image2 := env.resample image1 shape
    if use_alpha_as_mask then
      let alpha := channelImg 3 image2
      let mask_image := alpha.convert .L
      let image3 := image2.convert .RGB
      .ok (image3, some mask_image)
    else
      .ok (image2, none)

/-- A mask input: a path/URL string or an already-decoded PIL image. -/
inductive MaskInput where
  | str (s : String)
  | image (img : Img)

/-- Lines 51–68, `load_mask_latent(mask_input, shape)`: resolve the input
(string references are opened and converted to RGBA; decoded images are
taken as they are), resize to `(shape[-1], shape[-2])`, convert to `L`.
A shape with fewer than two entries would make the negative indexing
raise `IndexError`. -/
def load_mask_latent (env : Env) (mask_input : MaskInput) (shape : List Nat) :
    Except PyErr Img :=
  let resolved : Except PyErr Img :=
    match mask_input with
    | .str s =>
      match env.fetch s with
      | none => .error .fetchError
      | some i => .ok (i.convert .RGBA)
    | .image i => .ok i
  match resolved with
  | .error e => .error e
  | .ok mask_image =>
    match shape.reverse with
    | w :: h :: _ =>
      let mask := env.resample mask_image (w, h)
      .ok (mask.convert .L)
    | _ => .error .indexError

/-- Lines 70–89, `prepare_mask`: load and resize the mask, apply the
brightness adjustment when the factor differs from 1, then the contrast
adjustment when that factor differs from 1.  The inversion branch executes
`PIL.ImageOps.invert(mask)`, but the module only runs
`from PIL import Image, ImageOps` — the name `PIL` itself is never bound —
so taking that branch raises `NameError`. -/
def prepare_mask (env : Env) (mask_input : MaskInput) (mask_shape : List Nat)
    (mask_brightness_adjust mask_contrast_adjust : ℚ)
    (invert_mask : Bool) : Except PyErr Img :=
  match load_mask_latent env mask_input mask_shape with
  | .error e => .error e
  | .ok mask0 =>
    let mask1 := if mask_brightness_adjust ≠ 1
                 then env.adjustBrightness mask0 mask_brightness_adjust
                 else mask0
    let mask2 := if mask_contrast_adjust ≠ 1
                 then env.adjustContrast mask1 mask_contrast_adjust
                 else mask1
    if invert_mask then .error .nameError
    else .ok mask2

/-! ### The `generate` pipeline -/

/-- The caller's parameter set (the `args` fields `generate` reads). -/
structure Args where
  prompt : Option String
  n_samples : Nat
  W : Nat
  H : Nat
  steps : Nat
  seed : Int
  save_samples : Bool
  make_grid : Bool
  sampler : Int
  mask_overlay_blur : ℚ
  scale : ℚ
  outdir : String
  strength : ℚ
  strength_0_no_init : Bool
  use_init : Bool
  init_image : Option String
  init_sample : Option Tensor
  use_alpha_as_mask : Bool
  use_mask : Bool
  mask_file : Option String
  mask_contrast_adjust : ℚ
  mask_brightness_adjust : ℚ
  invert_mask : Bool
  overlay_mask : Bool

/-- The process-wide shared record (`root`): the host request object and
the first-result bookkeeping fields. -/
structure Root where
  p : P
  outpath_samples : String
  initial_seed : Option Int
  initial_info : Option String
  first_frame : Option Img

/-- Observable side effects of one `generate` call, in program order. -/
inductive Effect where
  /-- the strength auto-reset notice printed on lines 132–134 -/
  | notice
  /-- `os.makedirs(args.outdir, exist_ok=True)` -/
  | mkdir (dir : String)
  /-- the `processing.process_images(p)` call with the request it got -/
  | dispatched (req : P)

/-- Lines 149–151: `np.random.rand(args.W, args.H, 3) * 255` builds an
array of shape `(W, H, 3)`, which `Image.fromarray` decodes with `W` rows
and `H` columns, followed by `.convert('RGB')`. -/
def noiseInit (env : Env) (W H : Nat) : Img :=
  (fromarray { d0 := W, d1 := H, d2 := 3,
               val := fun i j k => toU8 (env.rand i j k * 255) }).convert .RGB

/-- Lines 139–151: the init-image resolution chain.  The local
`init_image` starts as `None` and every branch assigns it, so the first
component of a successful result is always `some`; `mask_image` is only
produced by `load_img` in the explicit-init branch. -/
def resolveInit (env : Env) (args : Args) :
    Except PyErr (Option Img × Option Img) :=
  match args.init_sample with
  | some t => .ok (some (fromarray (tensorToArr t)), none)
  | none =>
    if args.use_init = true ∧ args.init_image ≠ none ∧ args.init_image ≠ some "" then
      match args.init_image with
      | some path =>
        match load_img env path (args.W, args.H) args.use_alpha_as_mask with
        | .error e => .error e
        | .ok (img, mask) => .ok (some img, mask)
      | none => .ok (none, none)
    else
      .ok (some (noiseInit env args.W args.H), none)

/-- Lines 106–122: the scalar fields `generate` copies onto `root.p`. -/
def buildP0 (args : Args) (root : Root) : P :=
  { root.p with
    batch_size := args.n_samples,
    width := args.W,
    height := args.H,
    steps := args.steps,
    seed := args.seed,
    do_not_save_samples := !args.save_samples,
    do_not_save_grid := !args.make_grid,
    sampler_index := args.sampler,
    mask_blur := args.mask_overlay_blur,
    mask_blur_param := args.mask_overlay_blur,
    n_iter := 1,
    cfg_scale := args.scale,
    outpath_samples := root.outpath_samples,
    outpath_grids := root.outpath_samples }

/-- Message of the assertion on line 155. -/
def maskSourceMsg : String :=
  "use_mask==True: An mask image is required for a mask. Please enter a mask_file or use an init image with an alpha channel"

/-- Message of the assertion on line 156. -/
def maskInitMsg : String := "use_mask==True: use_init is required for a mask"

/-- Message of the assertion on line 172. -/
def overlayMsg : String :=
  "Need an init image when use_mask == True and overlay_mask == True"

/-- Lines 154–170: the mask block.  After the two assertions the source
evaluates the arguments of `prepare_mask(...)`; the second argument is
`init_image.shape`, and `init_image` is a PIL image in every branch of the
init resolution — PIL images have a `size` but no `shape` attribute — so
the attribute lookup raises `AttributeError` and `prepare_mask` is never
entered. -/
def maskStage (args : Args) (mask_image : Option Img) :
    Except PyErr (Option Img) :=
  if args.use_mask = true then
    if args.mask_file = none ∧ mask_image.isNone = true then
      .error (.assertionError maskSourceMsg)
    else if args.use_init = true then .error .attributeError
    else .error (.assertionError maskInitMsg)
  else .ok none

/-- Line 172: the overlay assertion, on the local `init_image` produced by
the resolution chain. -/
def overlayCheck (args : Args) (init_image : Option Img) : Except PyErr Unit :=
  if args.use_mask = true ∧ args.overlay_mask = true
      ∧ args.init_sample.isNone = true ∧ init_image.isNone = true then
    .error (.assertionError overlayMsg)
  else .ok ()

/-- Lines 179–181: `if root.initial_info == None:` write the seed actually
used and the info string into the shared record. -/
def rootAfterInfo (root : Root) (processed : Processed) : Root :=
  match root.initial_info with
  | none => { root with initial_seed := some processed.seed,
                        initial_info := some processed.info }
  | some _ => root

/-- Lines 183–184: `if root.first_frame == None:` write
`processed.images[0]` (an empty image list raises `IndexError` here). -/
def rootAfterFrame (root1 : Root) (processed : Processed) : Except PyErr Root :=
  match root1.first_frame with
  | none =>
    match processed.images with
    | [] => .error .indexError
    | img0 :: _ => .ok { root1 with first_frame := some img0 }
  | some _ => .ok root1

/-- Lines 178–194: dispatch has happened; update the first-result record,
then build the result list.  The `return_sample` branch reads the unbound
local `image` (`image = np.array(image)`), raising `NameError`. -/
def finishStage (root : Root) (processed : Processed) (return_sample : Bool) :
    Except PyErr (Root × List Img) :=
  match rootAfterFrame (rootAfterInfo root processed) processed with
  | .error e => .error e
  | .ok root2 =>
    if return_sample then .error .nameError
    else
      match processed.images with
      | [] => .error .indexError
      | img0 :: _ => .ok (root2, [img0])

/-- The trigger of the zero-strength-without-init policy (line 131):
`not args.use_init and args.strength > 0 and args.strength_0_no_init`. -/
def strengthReset (args : Args) : Prop :=
  args.use_init = false ∧ 0 < args.strength ∧ args.strength_0_no_init = true

instance (args : Args) : Decidable (strengthReset args) := by
  unfold strengthReset
  infer_instance

/-- Lines 91–196, `generate(args, root, frame, return_sample)`: assert the
prompt, substitute expressions, create the output directory, populate the
request, split off the negative prompt, apply the zero-strength-without-
init policy, resolve the init image, run the mask block and the overlay
assertion, dispatch, and update the first-result record.  Returns the
Python result (or the exception) together with the effect log. -/
def generate (env : Env) (args : Args) (root : Root) (frame : Nat)
    (return_sample : Bool) : Except PyErr (Root × List Img) × List Effect :=
  match args.prompt with
  | none => (.error (.assertionError ""), [])
  | some prompt0 =>
    let parsed_prompt := pySub env.ev frame prompt0
    let fx0 : List Effect := [.mkdir args.outdir]
    match splitNeg parsed_prompt with
    | .error e => (.error e, fx0)
    | .ok pq =>
      let strength' : ℚ := if strengthReset args then 0 else args.strength
      let fx1 : List Effect := if strengthReset args then [.notice] else []
      let p1 : P := { buildP0 args root with
                      prompt := pq.1, negative_prompt := pq.2,
                      denoising_strength := strength' }
      match resolveInit env args with
      | .error e => (.error e, fx0 ++ fx1)
      | .ok im =>
        match maskStage args im.2 with
        | .error e => (.error e, fx0 ++ fx1)
        | .ok mask =>
          match overlayCheck args im.1 with
          | .error e => (.error e, fx0 ++ fx1)
          | .ok _ =>
            let p2 : P := { p1 with init_images := [im.1], mask := mask }
            let processed := env.dispatch p2
            let fx := fx0 ++ fx1 ++ [Effect.dispatched p2]
            (finishStage root processed return_sample, fx)

/-! ### Claims about prompt processing -/

theorem splitAux_none {sep l : List Char} (h : breakOn sep l = none) :
    ∀ f, splitAux sep f l = [l] := by
  intro f
  cases f with
  | zero => rfl
  | succ f => simp [splitAux, h]

/-- C4: for every prompt string and frame index, expression substitution
replaces each of the backtick-delimited expression occurrences with the
evaluator's result at that same frame index, proceeding left-to-right over
non-overlapping matches (the `segsGo` decomposition rendered segmentwise),
leaves all non-delimited text unchanged, a prompt with zero delimiter
pairs is returned unchanged, and the number of replaced occurrences is the
number of delimiter pairs. -/
theorem c4_expression_substitution (ev : String → Nat → String) (frame : Nat)
    (s : String) :
    (pySub ev frame s).data
      = (segsGo s.data none).flatMap
          (renderSeg (fun occ => (ev ⟨occ⟩ frame).data)) ∧
    (s.data.count tick = 0 → pySub ev frame s = s) ∧
    (segsGo s.data none).countP (fun sg => Seg.isExpr sg)
      = s.data.count tick / 2 := by
  refine ⟨substGo_eq_segsGo _ s.data none, fun h => ?_, (segsGo_expr_count s.data).1⟩
  show String.mk (substGo _ s.data none) = s
  rw [substGo_no_tick _ _ h]

/-- C4 witness: a prompt with no backtick is returned unchanged. -/
theorem c4_witness :
    ("A cat".data.count tick = 0) ∧ pySub (fun _ _ => "7") 5 "A cat" = "A cat" :=
  ⟨by decide, (c4_expression_substitution (fun _ _ => "7") 5 "A cat").2.1 (by decide)⟩

/-- C3 counterexample: the claim predicts that a prompt containing two
occurrences of `--neg` is split at the first one; the code instead unpacks
the three-part split into two names and raises `ValueError`. -/
theorem c3_counterexample :
    splitNeg "a --neg b --neg c" = Except.error PyErr.valueError ∧
    splitNeg "a --neg b --neg c" ≠ Except.ok ("a ", " b --neg c") := by
  refine ⟨rfl, fun h => ?_⟩
  rw [show splitNeg "a --neg b --neg c" = Except.error PyErr.valueError from rfl] at h
  exact Except.noConfusion h

/-- C3 amended: splitting honors at most one `--neg` occurrence only for
prompts that contain at most one; with no occurrence the negative prompt
is empty, with exactly one the text before/after it becomes the
positive/negative prompt, and with two or more occurrences the unpacking
of the split raises `ValueError` (no prompt pair is produced). -/
theorem c3_neg_split (s : String) :
    (countOcc s negSep = 0 → splitNeg s = .ok (s, "")) ∧
    (∀ pre post, countOcc s negSep = 1 →
        breakOn negSep.data s.data = some (pre, post) →
        splitNeg s = .ok (⟨pre⟩, ⟨post⟩)) ∧
    (2 ≤ countOcc s negSep → splitNeg s = .error .valueError) := by
  have hsep : negSep.data ≠ [] := by decide
  have hsl : negSep.data.length = 5 := by decide
  refine ⟨?_, ?_, ?_⟩
  · intro h0
    have hbr : breakOn negSep.data s.data = none := by
      cases hl : s.data with
      | nil => simp [breakOn]
      | cons c cs =>
        cases hbr2 : breakOn negSep.data (c :: cs) with
        | none => rfl
        | some pp =>
          obtain ⟨pre, post⟩ := pp
          unfold countOcc at h0
          rw [hl] at h0
          simp [countOccAux, hbr2] at h0
    unfold splitNeg pySplit
    rw [splitAux_none hbr]
    simp
  · intro pre post h1 hbr
    have hlen := breakOn_length hbr
    unfold countOcc at h1
    have hpos : 1 ≤ s.data.length := by omega
    obtain ⟨n, hn⟩ : ∃ n, s.data.length = n + 1 :=
      ⟨s.data.length - 1, by omega⟩
    rw [hn] at h1
    rw [show countOccAux negSep.data (n + 1) s.data
          = countOccAux negSep.data n post + 1 from by
      simp [countOccAux, hbr]] at h1
    have hin : countOccAux negSep.data n post = 0 := by omega
    have hbrp : breakOn negSep.data post = none := by
      cases hbp : breakOn negSep.data post with
      | none => rfl
      | some pp =>
        obtain ⟨pre2, post2⟩ := pp
        obtain ⟨m, hm⟩ : ∃ m, n = m + 1 := ⟨n - 1, by omega⟩
        rw [hm] at hin
        simp [countOccAux, hbp] at hin
    unfold splitNeg pySplit
    rw [hn, show splitAux negSep.data (n + 1) s.data
          = pre :: splitAux negSep.data n post from by simp [splitAux, hbr],
        splitAux_none hbrp]
    simp
  · intro h2
    have hlen := splitAux_length hsep s.data.length s.data (le_refl _)
    unfold countOcc at h2
    unfold splitNeg pySplit
    cases hps : splitAux negSep.data s.data.length s.data with
    | nil => rw [hps] at hlen; simp at hlen
    | cons a tl =>
      cases tl with
      | nil =>
        rw [hps] at hlen
        simp only [List.length_cons, List.length_nil] at hlen
        omega
      | cons b tl2 =>
        cases tl2 with
        | nil =>
          rw [hps] at hlen
          simp only [List.length_cons, List.length_nil] at hlen
          omega
        | cons c tl3 => simp

/-- C3 witness: the two behaviors of spec property 3, via the amended
characterization. -/
theorem c3_witness :
    (countOcc "A cat --neg dog" negSep = 1
      ∧ splitNeg "A cat --neg dog" = .ok ("A cat ", " dog")) ∧
    (countOcc "A cat" negSep = 0 ∧ splitNeg "A cat" = .ok ("A cat", "")) :=
  ⟨⟨by decide, (c3_neg_split "A cat --neg dog").2.1 "A cat ".data " dog".data
      (by decide) rfl⟩,
   ⟨by decide, (c3_neg_split "A cat").1 (by decide)⟩⟩

/-! ### Concrete fixtures used by witnesses and counterexamples -/

/-- A concrete 4-band source image. -/
def baseImg : Img :=
  { width := 5, height := 4, mode := .RGBA, px := fun _ _ _ => 7 }

/-- A concrete produced image. -/
def outImg : Img :=
  { width := 1, height := 1, mode := .RGB, px := fun _ _ _ => 0 }

/-- A concrete host request object with default fields. -/
def pDefault : P :=
  { batch_size := 1, width := 0, height := 0, steps := 0, seed := 0,
    do_not_save_samples := false, do_not_save_grid := false,
    sampler_index := 0, mask_blur := 0, mask_blur_param := 0, n_iter := 1,
    cfg_scale := 0, outpath_samples := "", outpath_grids := "",
    prompt := "", negative_prompt := "", denoising_strength := 0,
    init_images := [], mask := none }

/-- A concrete environment: every fetch decodes to `baseImg`, resizing
sets the requested size and keeps the mode, adjustments are identities,
the random stream is constant, the evaluator returns `"1"`, and the
dispatcher returns one image with seed 7 and info string `"info"`. -/
def env0 : Env :=
  { fetch := fun _ => some baseImg,
    resample := fun i sz => { width := sz.1, height := sz.2, mode := i.mode, px := i.px },
    adjustBrightness := fun i _ => i,
    adjustContrast := fun i _ => i,
    rand := fun _ _ _ => 1/2,
    ev := fun _ _ => "1",
    dispatch := fun _ => { images := [outImg], seed := 7, info := "info" } }

/-- A concrete shared record with empty first-result fields. -/
def root0 : Root :=
  { p := pDefault, outpath_samples := "out", initial_seed := none,
    initial_info := none, first_frame := none }

/-- A concrete parameter set: plain prompt, no init, no mask. -/
def argsBase : Args :=
  { prompt := some "a", n_samples := 1, W := 2, H := 3, steps := 1,
    seed := 1, save_samples := true, make_grid := false, sampler := 0,
    mask_overlay_blur := 0, scale := 7, outdir := "out", strength := 0,
    strength_0_no_init := true, use_init := false, init_image := none,
    init_sample := none, use_alpha_as_mask := false, use_mask := false,
    mask_file := none, mask_contrast_adjust := 1,
    mask_brightness_adjust := 1, invert_mask := false,
    overlay_mask := false }

/-! ### Claims about image and mask loading -/

/-- C9: with `useAlphaAsMask=true`, `load_img` decodes to 4 channels and
returns a 3-channel image resized to the target size together with a
non-absent single-channel mask whose pixels are the 4th (alpha) channel of
the resized image; with `useAlphaAsMask=false` it returns a 3-channel
image and an absent mask, whatever the source's mode. -/
theorem c9_load_img (env : Env) (path : String) (shape : Nat × Nat) (src : Img)
    (hf : env.fetch path = some src)
    (hres : ∀ i sz, (env.resample i sz).mode = i.mode
        ∧ (env.resample i sz).width = sz.1 ∧ (env.resample i sz).height = sz.2) :
    (load_img env path shape true
        = .ok ((env.resample (src.convert .RGBA) shape).convert .RGB,
               some ((channelImg 3 (env.resample (src.convert .RGBA) shape)).convert .L))) ∧
    ((env.resample (src.convert .RGBA) shape).convert .RGB).mode.channels = 3 ∧
    ((env.resample (src.convert .RGBA) shape).convert .RGB).width = shape.1 ∧
    ((env.resample (src.convert .RGBA) shape).convert .RGB).height = shape.2 ∧
    ((channelImg 3 (env.resample (src.convert .RGBA) shape)).convert .L).mode.channels = 1 ∧
    (∀ x y, ((channelImg 3 (env.resample (src.convert .RGBA) shape)).convert .L).px x y 0
        = (env.resample (src.convert .RGBA) shape).px x y 3) ∧
    (load_img env path shape false = .ok (env.resample (src.convert .RGB) shape, none)) ∧
    (env.resample (src.convert .RGB) shape).mode.channels = 3 ∧
    (env.resample (src.convert .RGB) shape).width = shape.1 ∧
    (env.resample (src.convert .RGB) shape).height = shape.2 := by
  obtain ⟨hm1, hw1, hh1⟩ := hres (src.convert .RGBA) shape
  obtain ⟨hm2, hw2, hh2⟩ := hres (src.convert .RGB) shape
  refine ⟨?_, rfl, ?_, ?_, rfl, ?_, ?_, ?_, ?_, ?_⟩
  · simp [load_img, hf]
  · simpa [Img.convert] using hw1
  · simpa [Img.convert] using hh1
  · intro x y
    simp [Img.convert, channelImg]
  · simp [load_img, hf]
  · rw [hm2]
    simp [Img.convert, Mode.channels]
  · exact hw2
  · exact hh2

/-- C9 witness: the theorem at a concrete environment, source and target
size (the pixel fact instantiated at the origin). -/
theorem c9_witness :
    (load_img env0 "img.png" (2, 3) true
        = .ok ((env0.resample (baseImg.convert .RGBA) (2, 3)).convert .RGB,
               some ((channelImg 3 (env0.resample (baseImg.convert .RGBA) (2, 3))).convert .L))) ∧
    ((env0.resample (baseImg.convert .RGBA) (2, 3)).convert .RGB).mode.channels = 3 ∧
    ((env0.resample (baseImg.convert .RGBA) (2, 3)).convert .RGB).width = 2 ∧
    ((env0.resample (baseImg.convert .RGBA) (2, 3)).convert .RGB).height = 3 ∧
    ((channelImg 3 (env0.resample (baseImg.convert .RGBA) (2, 3))).convert .L).mode.channels = 1 ∧
    ((channelImg 3 (env0.resample (baseImg.convert .RGBA) (2, 3))).convert .L).px 0 0 0
        = (env0.resample (baseImg.convert .RGBA) (2, 3)).px 0 0 3 ∧
    (load_img env0 "img.png" (2, 3) false
        = .ok (env0.resample (baseImg.convert .RGB) (2, 3), none)) := by
  have h := c9_load_img env0 "img.png" (2, 3) baseImg rfl
    (fun i sz => ⟨rfl, rfl, rfl⟩)
  exact ⟨h.1, h.2.1, h.2.2.1, h.2.2.2.1, h.2.2.2.2.1, h.2.2.2.2.2.1 0 0,
    h.2.2.2.2.2.2.1⟩

/-- C5: `prepare_mask` applies the brightness adjustment first and the
contrast adjustment second, each only when the corresponding factor
differs from 1 (a factor of exactly 1 leaves the mask untouched by that
step) — but whenever the invert flag is set it raises `NameError`
instead of inverting, because line 88 evaluates `PIL.ImageOps.invert`
while only the names `Image` and `ImageOps` are imported from `PIL`. -/
theorem c5_prepare_mask (env : Env) (img : Img) (rest : List Nat)
    (h w : Nat) (b c : ℚ) :
    (prepare_mask env (.image img) (rest ++ [h, w]) b c false
        = .ok (if c ≠ 1
               then env.adjustContrast
                 (if b ≠ 1
                  then env.adjustBrightness ((env.resample img (w, h)).convert .L) b
                  else (env.resample img (w, h)).convert .L) c
               else if b ≠ 1
                    then env.adjustBrightness ((env.resample img (w, h)).convert .L) b
                    else (env.resample img (w, h)).convert .L)) ∧
    (prepare_mask env (.image img) (rest ++ [h, w]) 1 1 false
        = .ok ((env.resample img (w, h)).convert .L)) ∧
    (prepare_mask env (.image img) (rest ++ [h, w]) b c true
        = .error .nameError) := by
  have hsh : (rest ++ [h, w]).reverse = w :: h :: rest.reverse := by
    simp
  refine ⟨?_, ?_, ?_⟩ <;>
    simp [prepare_mask, load_mask_latent, hsh]

/-- C1: exactly one init-image source is chosen, by fixed mutually
exclusive precedence: a supplied carried-over sample tensor is converted
to an 8-bit image; otherwise, with `use_init` enabled and a non-empty init
reference, the explicit init image is loaded; otherwise a synthetic noise
image is produced — never a blend. -/
theorem c1_init_precedence (env : Env) (args : Args) :
    (∀ t, args.init_sample = some t →
        resolveInit env args = .ok (some (fromarray (tensorToArr t)), none)) ∧
    (∀ path, args.init_sample = none → args.use_init = true →
        args.init_image = some path → path ≠ "" →
        resolveInit env args
          = (load_img env path (args.W, args.H) args.use_alpha_as_mask).map
              (fun r => (some r.1, r.2))) ∧
    (args.init_sample = none →
        ¬(args.use_init = true ∧ args.init_image ≠ none
            ∧ args.init_image ≠ some "") →
        resolveInit env args = .ok (some (noiseInit env args.W args.H), none)) := by
  refine ⟨?_, ?_, ?_⟩
  · intro t ht
    simp [resolveInit, ht]
  · intro path hs hu hi hne
    have hcond : args.use_init = true ∧ args.init_image ≠ none
        ∧ args.init_image ≠ some "" := by
      refine ⟨hu, by simp [hi], ?_⟩
      rw [hi]
      simpa using hne
    rw [resolveInit, hs]
    rw [if_pos hcond]
    rw [hi]
    cases hload : load_img env path (args.W, args.H) args.use_alpha_as_mask with
    | error e => simp [hload, Except.map]
    | ok pr => cases pr with
      | mk i m => simp [hload, Except.map]
  · intro hs hnc
    rw [resolveInit, hs]
    simp only [if_neg hnc]

/-- C1 witness: the carried-over sample wins at a concrete input where an
explicit init reference is also supplied. -/
theorem c1_witness :
    resolveInit env0
        { argsBase with init_sample := some ⟨3, 1, 1, fun _ _ _ => 0⟩,
                        use_init := true, init_image := some "img.png" }
      = .ok (some (fromarray (tensorToArr ⟨3, 1, 1, fun _ _ _ => 0⟩)), none) :=
  (c1_init_precedence env0 _).1 ⟨3, 1, 1, fun _ _ _ => 0⟩ rfl

/-- C2: the synthetic-noise fallback is requested for a `W`-wide,
`H`-tall image, but `np.random.rand(args.W, args.H, 3)` lays the axes out
as `(rows, cols, channels)`, so the produced image is `H` wide and `W`
tall: at `W = 2, H = 3` (no carried-over sample, `use_init` disabled) the
resolved init image has width 3 and height 2, contradicting the claimed
width `W = 2`, height `H = 3`. -/
theorem c2_noise_dimensions :
    argsBase.W = 2 ∧ argsBase.H = 3 ∧
    (resolveInit env0 argsBase).map
        (fun r => (r.1.map Img.width, r.1.map Img.height))
      = .ok (some 3, some 2) :=
  ⟨rfl, rfl, rfl⟩

/-! ### Equations of `generate`, by pipeline stage -/

/-- The request `generate` dispatches on the success path. -/
def reqP (args : Args) (root : Root) (pq : String × String)
    (im : Option Img × Option Img) (mask : Option Img) : P :=
  { buildP0 args root with
    prompt := pq.1, negative_prompt := pq.2,
    denoising_strength := if strengthReset args then 0 else args.strength,
    init_images := [im.1], mask := mask }

/-- The effects emitted before any dispatch. -/
def fxPre (args : Args) : List Effect :=
  Effect.mkdir args.outdir :: (if strengthReset args then [Effect.notice] else [])

theorem generate_eq_none (env : Env) (args : Args) (root : Root) (frame : Nat)
    (rs : Bool) (hp : args.prompt = none) :
    generate env args root frame rs = (.error (.assertionError ""), []) := by
  simp [generate, hp]

theorem generate_eq_split_err (env : Env) (args : Args) (root : Root)
    (frame : Nat) (rs : Bool) (prompt0 : String) (e : PyErr)
    (hp : args.prompt = some prompt0)
    (hsplit : splitNeg (pySub env.ev frame prompt0) = .error e) :
    generate env args root frame rs = (.error e, [Effect.mkdir args.outdir]) := by
  simp [generate, hp, hsplit]

theorem generate_eq_init_err (env : Env) (args : Args) (root : Root)
    (frame : Nat) (rs : Bool) (prompt0 : String) (pq : String × String)
    (e : PyErr) (hp : args.prompt = some prompt0)
    (hsplit : splitNeg (pySub env.ev frame prompt0) = .ok pq)
    (hinit : resolveInit env args = .error e) :
    generate env args root frame rs = (.error e, fxPre args) := by
  simp [generate, hp, hsplit, hinit, fxPre]

theorem generate_eq_mask_err (env : Env) (args : Args) (root : Root)
    (frame : Nat) (rs : Bool) (prompt0 : String) (pq : String × String)
    (im : Option Img × Option Img) (e : PyErr) (hp : args.prompt = some prompt0)
    (hsplit : splitNeg (pySub env.ev frame prompt0) = .ok pq)
    (hinit : resolveInit env args = .ok im)
    (hmask : maskStage args im.2 = .error e) :
    generate env args root frame rs = (.error e, fxPre args) := by
  simp [generate, hp, hsplit, hinit, hmask, fxPre]

theorem generate_eq_overlay_err (env : Env) (args : Args) (root : Root)
    (frame : Nat) (rs : Bool) (prompt0 : String) (pq : String × String)
    (im : Option Img × Option Img) (mask : Option Img) (e : PyErr)
    (hp : args.prompt = some prompt0)
    (hsplit : splitNeg (pySub env.ev frame prompt0) = .ok pq)
    (hinit : resolveInit env args = .ok im)
    (hmask : maskStage args im.2 = .ok mask)
    (hov : overlayCheck args im.1 = .error e) :
    generate env args root frame rs = (.error e, fxPre args) := by
  simp [generate, hp, hsplit, hinit, hmask, hov, fxPre]

theorem generate_eq_ok (env : Env) (args : Args) (root : Root) (frame : Nat)
    (rs : Bool) (prompt0 : String) (pq : String × String)
    (im : Option Img × Option Img) (mask : Option Img)
    (hp : args.prompt = some prompt0)
    (hsplit : splitNeg (pySub env.ev frame prompt0) = .ok pq)
    (hinit : resolveInit env args = .ok im)
    (hmask : maskStage args im.2 = .ok mask)
    (hov : overlayCheck args im.1 = .ok ()) :
    generate env args root frame rs
      = (finishStage root (env.dispatch (reqP args root pq im mask)) rs,
         fxPre args ++ [Effect.dispatched (reqP args root pq im mask)]) := by
  simp [generate, hp, hsplit, hinit, hmask, hov, fxPre, reqP]

/-! ### Error shapes of the individual stages -/

theorem splitNeg_err {s : String} {e : PyErr}
    (h : splitNeg s = .error e) : e = .valueError := by
  simp only [splitNeg] at h
  split at h
  · split at h
    · exact absurd h (by simp)
    · simp at h
      exact h.symm
  · exact absurd h (by simp)

theorem load_img_err {env : Env} {path : String} {shape : Nat × Nat}
    {a : Bool} {e : PyErr} (h : load_img env path shape a = .error e) :
    e = .fetchError := by
  simp only [load_img] at h
  split at h
  · simp at h
    exact h.symm
  · split at h <;> exact absurd h (by simp)

theorem resolveInit_err {env : Env} {args : Args} {e : PyErr}
    (h : resolveInit env args = .error e) : e = .fetchError := by
  simp only [resolveInit] at h
  split at h
  · exact absurd h (by simp)
  · split at h
    · split at h
      · split at h
        · simp at h
          subst h
          exact load_img_err (by assumption)
        · exact absurd h (by simp)
      · exact absurd h (by simp)
    · exact absurd h (by simp)

theorem maskStage_ok_inv {args : Args} {mi m : Option Img}
    (h : maskStage args mi = .ok m) : args.use_mask = false ∧ m = none := by
  simp only [maskStage] at h
  by_cases hm : args.use_mask = true
  · rw [if_pos hm] at h
    split at h
    · exact absurd h (by simp)
    · split at h <;> exact absurd h (by simp)
  · rw [if_neg hm] at h
    simp at h
    exact ⟨by simpa using hm, h.symm⟩

theorem maskStage_err_inv {args : Args} {mi : Option Img} {e : PyErr}
    (h : maskStage args mi = .error e) :
    args.use_mask = true
      ∧ ((e = .assertionError maskSourceMsg ∧ args.mask_file = none ∧ mi = none)
        ∨ (e = .attributeError ∧ args.use_init = true)
        ∨ (e = .assertionError maskInitMsg ∧ args.use_init = false)) := by
  simp only [maskStage] at h
  by_cases hm : args.use_mask = true
  · rw [if_pos hm] at h
    refine ⟨hm, ?_⟩
    by_cases hsrc : args.mask_file = none ∧ mi.isNone = true
    · rw [if_pos hsrc] at h
      simp only [Except.error.injEq] at h
      exact Or.inl ⟨h.symm, hsrc.1, Option.isNone_iff_eq_none.mp hsrc.2⟩
    · rw [if_neg hsrc] at h
      by_cases hu : args.use_init = true
      · rw [if_pos hu] at h
        simp only [Except.error.injEq] at h
        exact Or.inr (Or.inl ⟨h.symm, hu⟩)
      · rw [if_neg hu] at h
        simp only [Except.error.injEq] at h
        exact Or.inr (Or.inr ⟨h.symm, by simpa using hu⟩)
  · rw [if_neg hm] at h
    exact absurd h (by simp)

theorem overlayCheck_err_inv {args : Args} {ii : Option Img} {e : PyErr}
    (h : overlayCheck args ii = .error e) : args.use_mask = true := by
  simp only [overlayCheck] at h
  split at h
  · rename_i hc
    exact hc.1
  · exact absurd h (by simp)

theorem rootAfterFrame_err {root1 : Root} {processed : Processed} {e : PyErr}
    (h : rootAfterFrame root1 processed = .error e) : e = .indexError := by
  simp only [rootAfterFrame] at h
  split at h
  · split at h
    · simp only [Except.error.injEq] at h
      exact h.symm
    · exact absurd h (by simp)
  · exact absurd h (by simp)

theorem finishStage_err_inv {root : Root} {processed : Processed} {rs : Bool}
    {e : PyErr} (h : finishStage root processed rs = .error e) :
    e = .indexError ∨ e = .nameError := by
  simp only [finishStage] at h
  split at h
  · rename_i e1 heq
    simp only [Except.error.injEq] at h
    subst h
    exact Or.inl (rootAfterFrame_err heq)
  · split at h
    · simp only [Except.error.injEq] at h
      exact Or.inr h.symm
    · split at h
      · simp only [Except.error.injEq] at h
        exact Or.inl h.symm
      · exact absurd h (by simp)

/-! ### Claims about the assembled pipeline -/

/-- C6: the claim describes a successful delegation to `prepare_mask`, but
whenever the mask block is reached with its two assertions satisfied,
evaluating the call's second argument `init_image.shape` raises
`AttributeError` (PIL images carry `size`, not `shape`), so the claimed
delegation — which is also written with `args.mask_contrast_adjust` in the
brightness position and `args.mask_brightness_adjust` in the contrast
position — never happens: `generate` fails instead. -/
theorem c6_mask_delegation (env : Env) (args : Args) (root : Root)
    (frame : Nat) (rs : Bool) (prompt0 : String) (pq : String × String)
    (im : Option Img × Option Img)
    (hp : args.prompt = some prompt0)
    (hsplit : splitNeg (pySub env.ev frame prompt0) = .ok pq)
    (hinit : resolveInit env args = .ok im)
    (hm : args.use_mask = true)
    (hsrc : ¬(args.mask_file = none ∧ im.2 = none))
    (hu : args.use_init = true) :
    (generate env args root frame rs).1 = .error .attributeError := by
  have hms : maskStage args im.2 = .error .attributeError := by
    simp only [maskStage]
    rw [if_pos hm,
        if_neg (fun hc => hsrc ⟨hc.1, Option.isNone_iff_eq_none.mp hc.2⟩),
        if_pos hu]
  rw [generate_eq_mask_err env args root frame rs prompt0 pq im _ hp hsplit
    hinit hms]

/-- A parameter set requesting a mask: explicit mask reference, init
enabled (with no init reference, so the init image is the noise
fallback). -/
def argsMask : Args :=
  { argsBase with use_mask := true, use_init := true,
                  mask_file := some "m.png" }

/-- C6 witness: at a concrete input satisfying the mask preconditions,
`generate` fails with `AttributeError` instead of delegating. -/
theorem c6_witness :
    (generate env0 argsMask root0 0 false).1 = .error .attributeError :=
  c6_mask_delegation env0 argsMask root0 0 false "a" ("a", "")
    (some (noiseInit env0 2 3), none) rfl rfl rfl rfl (by simp [argsMask]) rfl

/-- C8: when `use_init` is disabled, the supplied strength is positive and
the zero-strength-without-init policy flag is set, any successful call
emits the user-visible notice and dispatches a request whose denoising
strength is 0; in every other case no notice is emitted and the dispatched
request carries the supplied strength unchanged. -/
theorem c8_strength_policy (env : Env) (args : Args) (root : Root)
    (frame : Nat) (rs : Bool) (res : Root × List Img)
    (h : (generate env args root frame rs).1 = .ok res) :
    (strengthReset args →
        Effect.notice ∈ (generate env args root frame rs).2 ∧
        ∃ p, Effect.dispatched p ∈ (generate env args root frame rs).2
          ∧ p.denoising_strength = 0) ∧
    (¬strengthReset args →
        Effect.notice ∉ (generate env args root frame rs).2 ∧
        ∃ p, Effect.dispatched p ∈ (generate env args root frame rs).2
          ∧ p.denoising_strength = args.strength) := by
  cases hp : args.prompt with
  | none =>
    rw [generate_eq_none env args root frame rs hp] at h
    exact absurd h (by simp)
  | some prompt0 =>
    cases hsplit : splitNeg (pySub env.ev frame prompt0) with
    | error e =>
      rw [generate_eq_split_err env args root frame rs prompt0 e hp hsplit] at h
      exact absurd h (by simp)
    | ok pq =>
      cases hinit : resolveInit env args with
      | error e =>
        rw [generate_eq_init_err env args root frame rs prompt0 pq e hp hsplit
          hinit] at h
        exact absurd h (by simp)
      | ok im =>
        cases hmask : maskStage args im.2 with
        | error e =>
          rw [generate_eq_mask_err env args root frame rs prompt0 pq im e hp
            hsplit hinit hmask] at h
          exact absurd h (by simp)
        | ok mask =>
          cases hov : overlayCheck args im.1 with
          | error e =>
            rw [generate_eq_overlay_err env args root frame rs prompt0 pq im
              mask e hp hsplit hinit hmask hov] at h
            exact absurd h (by simp)
          | ok u =>
            cases u
            rw [generate_eq_ok env args root frame rs prompt0 pq im mask hp
              hsplit hinit hmask hov]
            constructor
            · intro hr
              refine ⟨?_, ⟨reqP args root pq im mask, ?_, ?_⟩⟩
              · simp [fxPre, if_pos hr]
              · simp [fxPre]
              · simp [reqP, if_pos hr]
            · intro hr
              refine ⟨?_, ⟨reqP args root pq im mask, ?_, ?_⟩⟩
              · simp [fxPre, if_neg hr]
              · simp [fxPre]
              · simp [reqP, if_neg hr]

/-- A parameter set triggering the zero-strength-without-init policy. -/
def argsStrength : Args := { argsBase with strength := 1 }

/-- The shared record after one successful call from the empty `root0`
under `env0`. -/
def rootX : Root :=
  { root0 with initial_seed := some 7, initial_info := some "info",
               first_frame := some outImg }

/-- C8 witness: at a concrete call with `use_init` off, strength 1 and the
policy flag on, the notice is emitted. -/
theorem c8_witness :
    Effect.notice ∈ (generate env0 argsStrength root0 0 false).2 :=
  ((c8_strength_policy env0 argsStrength root0 0 false (rootX, [outImg]) rfl).1
    ⟨rfl, by norm_num [argsStrength, argsBase], rfl⟩).1

theorem rootAfterInfo_first_frame (root : Root) (processed : Processed) :
    (rootAfterInfo root processed).first_frame = root.first_frame := by
  cases hro : root.initial_info <;> simp [rootAfterInfo, hro]

theorem rootAfterFrame_ok_inv {root1 : Root} {pr : Processed} {root2 : Root}
    (h : rootAfterFrame root1 pr = .ok root2) :
    root2.initial_seed = root1.initial_seed
      ∧ root2.initial_info = root1.initial_info
      ∧ (root1.first_frame = none → ∃ i0, root2.first_frame = some i0)
      ∧ (root1.first_frame ≠ none → root2.first_frame = root1.first_frame) := by
  simp only [rootAfterFrame] at h
  split at h
  · rename_i hff
    split at h
    · exact absurd h (by simp)
    · rename_i i0 tl hpi
      simp only [Except.ok.injEq] at h
      subst h
      exact ⟨rfl, rfl, fun _ => ⟨i0, rfl⟩, fun hnf => absurd hff hnf⟩
  · rename_i f hff
    simp only [Except.ok.injEq] at h
    subst h
    refine ⟨rfl, rfl, fun h0 => ?_, fun _ => rfl⟩
    rw [hff] at h0
    exact absurd h0 (by simp)

theorem finishStage_ok_root {root : Root} {processed : Processed} {rs : Bool}
    {root' : Root} {imgs : List Img}
    (h : finishStage root processed rs = .ok (root', imgs)) :
    rootAfterFrame (rootAfterInfo root processed) processed = .ok root' := by
  simp only [finishStage] at h
  split at h
  · exact absurd h (by simp)
  · rename_i root2 heq
    split at h
    · exact absurd h (by simp)
    · split at h
      · exact absurd h (by simp)
      · simp only [Except.ok.injEq, Prod.mk.injEq] at h
        rw [heq, h.1]

/-- C10: on every successful call, the first-result fields are populated
when the record is empty and preserved verbatim when it is already
populated — so across a sequence of successful calls sharing one record
they are written by the first call and never overwritten later. -/
theorem c10_first_result (env : Env) (args : Args) (root : Root) (frame : Nat)
    (rs : Bool) (root' : Root) (imgs : List Img)
    (h : (generate env args root frame rs).1 = .ok (root', imgs)) :
    ((root.initial_info = none ∧ root.first_frame = none) →
        root'.initial_seed ≠ none ∧ root'.initial_info ≠ none
          ∧ root'.first_frame ≠ none) ∧
    (root.initial_info ≠ none →
        root'.initial_seed = root.initial_seed
          ∧ root'.initial_info = root.initial_info) ∧
    (root.first_frame ≠ none → root'.first_frame = root.first_frame) := by
  have hfin : ∃ processed, finishStage root processed rs = .ok (root', imgs) := by
    cases hp : args.prompt with
    | none =>
      rw [generate_eq_none env args root frame rs hp] at h
      exact absurd h (by simp)
    | some prompt0 =>
      cases hsplit : splitNeg (pySub env.ev frame prompt0) with
      | error e =>
        rw [generate_eq_split_err env args root frame rs prompt0 e hp hsplit] at h
        exact absurd h (by simp)
      | ok pq =>
        cases hinit : resolveInit env args with
        | error e =>
          rw [generate_eq_init_err env args root frame rs prompt0 pq e hp
            hsplit hinit] at h
          exact absurd h (by simp)
        | ok im =>
          cases hmask : maskStage args im.2 with
          | error e =>
            rw [generate_eq_mask_err env args root frame rs prompt0 pq im e hp
              hsplit hinit hmask] at h
            exact absurd h (by simp)
          | ok mask =>
            cases hov : overlayCheck args im.1 with
            | error e =>
              rw [generate_eq_overlay_err env args root frame rs prompt0 pq im
                mask e hp hsplit hinit hmask hov] at h
              exact absurd h (by simp)
            | ok u =>
              cases u
              rw [generate_eq_ok env args root frame rs prompt0 pq im mask hp
                hsplit hinit hmask hov] at h
              exact ⟨env.dispatch (reqP args root pq im mask), h⟩
  obtain ⟨processed, hfin⟩ := hfin
  have hroot := finishStage_ok_root hfin
  obtain ⟨hseed, hinfo, hffnew, hffold⟩ := rootAfterFrame_ok_inv hroot
  have hfr := rootAfterInfo_first_frame root processed
  refine ⟨fun hc => ?_, fun hni => ?_, fun hnf => ?_⟩
  · obtain ⟨hro, hff⟩ := hc
    have h1 : (rootAfterInfo root processed).initial_seed = some processed.seed
        ∧ (rootAfterInfo root processed).initial_info = some processed.info := by
      simp [rootAfterInfo, hro]
    obtain ⟨i0, hi0⟩ := hffnew (by rw [hfr, hff])
    refine ⟨?_, ?_, ?_⟩
    · rw [hseed, h1.1]
      simp
    · rw [hinfo, h1.2]
      simp
    · rw [hi0]
      simp
  · have h1 : rootAfterInfo root processed = root := by
      cases hro : root.initial_info with
      | none => exact absurd hro hni
      | some i => simp [rootAfterInfo, hro]
    rw [h1] at hseed hinfo
    exact ⟨hseed, hinfo⟩
  · rw [hffold (by rw [hfr]; exact hnf), hfr]

/-- C10 witness: one successful call starting from the empty record
populates all three first-result fields. -/
theorem c10_witness :
    rootX.initial_seed ≠ none ∧ rootX.initial_info ≠ none
      ∧ rootX.first_frame ≠ none :=
  (c10_first_result env0 argsBase root0 0 false rootX [outImg] rfl).1 ⟨rfl, rfl⟩

/-- Whether a result is a precondition (assertion) failure. -/
def isPrecondFailure (r : Except PyErr (Root × List Img)) : Bool :=
  match r with
  | .error (.assertionError _) => true
  | _ => false

/-- A parameter set in the claimed mask-precondition situation whose
prompt carries two `--neg` occurrences. -/
def argsNegMask : Args :=
  { argsBase with prompt := some "a --neg b --neg c", use_mask := true }

/-- C7 counterexample: mask usage is enabled with neither a mask reference
nor an alpha-derived mask — one of the claim's precondition situations —
yet `generate` fails with `ValueError` from the `--neg` unpacking, which
runs first, not with a precondition error. -/
theorem c7_counterexample :
    argsNegMask.use_mask = true ∧ argsNegMask.mask_file = none ∧
    (resolveInit env0 argsNegMask).map Prod.snd = .ok none ∧
    (generate env0 argsNegMask root0 0 false).1 = .error .valueError ∧
    isPrecondFailure (generate env0 argsNegMask root0 0 false).1 = false :=
  ⟨rfl, rfl, rfl, rfl, rfl⟩

/-- C7 amended: precondition (assertion) errors arise only in the listed
situations — absent prompt; mask enabled without a mask source; mask
enabled without init — the overlay situation being unreachable because an
init image is always resolved; conversely each of those situations yields
the corresponding precondition error provided the stages running earlier
do not fail first (the substituted prompt splits cleanly and the init
resolution succeeds); and when a precondition error occurs no generation
request is dispatched. -/
theorem c7_precondition_errors (env : Env) (args : Args) (root : Root)
    (frame : Nat) (rs : Bool) :
    (∀ msg, (generate env args root frame rs).1 = .error (.assertionError msg) →
        args.prompt = none
        ∨ (args.use_mask = true ∧ args.mask_file = none
            ∧ (resolveInit env args).map Prod.snd = .ok none)
        ∨ (args.use_mask = true ∧ args.use_init = false)) ∧
    (args.prompt = none →
        (generate env args root frame rs).1 = .error (.assertionError "")) ∧
    (∀ prompt0 pq i1, args.prompt = some prompt0 →
        splitNeg (pySub env.ev frame prompt0) = .ok pq →
        resolveInit env args = .ok (i1, none) →
        args.use_mask = true → args.mask_file = none →
        (generate env args root frame rs).1
          = .error (.assertionError maskSourceMsg)) ∧
    (∀ prompt0 pq im f, args.prompt = some prompt0 →
        splitNeg (pySub env.ev frame prompt0) = .ok pq →
        resolveInit env args = .ok im →
        args.use_mask = true → args.mask_file = some f →
        args.use_init = false →
        (generate env args root frame rs).1
          = .error (.assertionError maskInitMsg)) ∧
    (∀ msg, (generate env args root frame rs).1 = .error (.assertionError msg) →
        ∀ p, Effect.dispatched p ∉ (generate env args root frame rs).2) := by
  refine ⟨?_, ?_, ?_, ?_, ?_⟩
  · intro msg h
    cases hp : args.prompt with
    | none => exact Or.inl rfl
    | some prompt0 =>
      cases hsplit : splitNeg (pySub env.ev frame prompt0) with
      | error e =>
        have hv := splitNeg_err hsplit
        subst hv
        rw [generate_eq_split_err env args root frame rs prompt0 _ hp hsplit] at h
        simp at h
      | ok pq =>
        cases hinit : resolveInit env args with
        | error e =>
          have hv := resolveInit_err hinit
          subst hv
          rw [generate_eq_init_err env args root frame rs prompt0 pq _ hp
            hsplit hinit] at h
          simp at h
        | ok im =>
          cases hmask : maskStage args im.2 with
          | error e =>
            rw [generate_eq_mask_err env args root frame rs prompt0 pq im e hp
              hsplit hinit hmask] at h
            simp only [] at h
            obtain ⟨hm, hcases⟩ := maskStage_err_inv hmask
            rcases hcases with ⟨he, hf, hmi⟩ | ⟨he, _⟩ | ⟨he, hu⟩
            · refine Or.inr (Or.inl ⟨hm, hf, ?_⟩)
              simp [Except.map, hmi]
            · subst he
              simp at h
            · exact Or.inr (Or.inr ⟨hm, hu⟩)
          | ok mask =>
            obtain ⟨hmf, _⟩ := maskStage_ok_inv hmask
            cases hov : overlayCheck args im.1 with
            | error e =>
              have := overlayCheck_err_inv hov
              rw [hmf] at this
              exact Bool.noConfusion this
            | ok u =>
              cases u
              rw [generate_eq_ok env args root frame rs prompt0 pq im mask hp
                hsplit hinit hmask hov] at h
              replace h : finishStage root
                  (env.dispatch (reqP args root pq im mask)) rs
                  = .error (.assertionError msg) := h
              rcases finishStage_err_inv h with h1 | h1 <;>
                exact PyErr.noConfusion h1
  · intro hp
    rw [generate_eq_none env args root frame rs hp]
  · intro prompt0 pq i1 hp hsplit hinit hm hf
    have hms : maskStage args ((i1, (none : Option Img))).2
        = .error (.assertionError maskSourceMsg) := by
      simp only [maskStage]
      rw [if_pos hm, if_pos ⟨hf, rfl⟩]
    rw [generate_eq_mask_err env args root frame rs prompt0 pq (i1, none) _ hp
      hsplit hinit hms]
  · intro prompt0 pq im f hp hsplit hinit hm hf hu
    have hms : maskStage args im.2 = .error (.assertionError maskInitMsg) := by
      simp only [maskStage]
      rw [if_pos hm, if_neg (fun hc => by rw [hf] at hc; simp at hc),
        if_neg (fun h' => by rw [hu] at h'; exact Bool.noConfusion h')]
    rw [generate_eq_mask_err env args root frame rs prompt0 pq im _ hp hsplit
      hinit hms]
  · intro msg h p
    cases hp : args.prompt with
    | none =>
      rw [generate_eq_none env args root frame rs hp]
      simp
    | some prompt0 =>
      cases hsplit : splitNeg (pySub env.ev frame prompt0) with
      | error e =>
        rw [generate_eq_split_err env args root frame rs prompt0 e hp hsplit]
        simp
      | ok pq =>
        cases hinit : resolveInit env args with
        | error e =>
          rw [generate_eq_init_err env args root frame rs prompt0 pq e hp
            hsplit hinit]
          by_cases hr : strengthReset args <;> simp [fxPre, hr]
        | ok im =>
          cases hmask : maskStage args im.2 with
          | error e =>
            rw [generate_eq_mask_err env args root frame rs prompt0 pq im e hp
              hsplit hinit hmask]
            by_cases hr : strengthReset args <;> simp [fxPre, hr]
          | ok mask =>
            cases hov : overlayCheck args im.1 with
            | error e =>
              rw [generate_eq_overlay_err env args root frame rs prompt0 pq im
                mask e hp hsplit hinit hmask hov]
              by_cases hr : strengthReset args <;> simp [fxPre, hr]
            | ok u =>
              cases u
              rw [generate_eq_ok env args root frame rs prompt0 pq im mask hp
                hsplit hinit hmask hov] at h
              replace h : finishStage root
                  (env.dispatch (reqP args root pq im mask)) rs
                  = .error (.assertionError msg) := h
              rcases finishStage_err_inv h with h1 | h1 <;>
                exact PyErr.noConfusion h1

/-- C7 witness: mask enabled with no mask source and no alpha-derived
mask yields the mask-source precondition error. -/
theorem c7_witness :
    (generate env0 { argsBase with use_mask := true } root0 0 false).1
      = .error (.assertionError maskSourceMsg) :=
  (c7_precondition_errors env0 { argsBase with use_mask := true }
      root0 0 false).2.2.1 "a" ("a", "") (some (noiseInit env0 2 3))
    rfl rfl rfl rfl rfl
